import Mathlib

/-!
Verification development for the s3_benchmark harness (src/src/main.rs).

The program spawns `put_thread_num` put workers and `get_thread_num` get
workers against an S3-compatible endpoint, collects per-request `Stats`
records in a shared `Mutex<Vec<Stats>>`, joins all workers, and then computes
and prints per-operation-type counts, total time, average time and total
size.

The embedding below is a shallow model of that code: wall-clock time is a
natural-number clock (milliseconds); the random generator is modelled as an
abstract supply of natural numbers consumed through `gen_range`; each network
response the code could observe is supplied by a "script" value, so worker
loops become total functions of their scripts.  A `.unwrap()` on an `Err` or
`None` in the Rust source is modelled as an explicit `panicked` outcome that
aborts the enclosing worker task (tokio absorbs the panic at join).
-/

namespace S3Bench

/-- `enum RequestType { Put, Get }` (main.rs lines 9-13). -/
inductive RequestType where
  | Put
  | Get
  deriving DecidableEq, Repr

/-- `struct Stats` (main.rs lines 15-21): timestamps are a millisecond clock. -/
structure Stats where
  start_time : Nat
  end_time : Nat
  request_type : RequestType
  file_size : Nat
  deriving DecidableEq, Repr

/-- `end_time.duration_since(start_time).as_millis()` (lines 179, 184). -/
def duration_ms (s : Stats) : Nat := s.end_time - s.start_time

/-- The six mutable counters of the aggregation loop (main.rs lines 168-173),
in their declaration order. -/
structure Tally where
  put_count : Nat
  get_count : Nat
  put_time : Nat
  get_time : Nat
  put_file_size : Nat
  get_file_size : Nat
  deriving DecidableEq, Repr

/-- One pass of the `for i in stat_vec.iter()` loop body (lines 175-188). -/
def tallyStep (t : Tally) (s : Stats) : Tally :=
  match s.request_type with
  | .Put =>
      { t with
        put_count := t.put_count + 1
        put_time := t.put_time + duration_ms s
        put_file_size := t.put_file_size + s.file_size }
  | .Get =>
      { t with
        get_count := t.get_count + 1
        get_time := t.get_time + duration_ms s
        get_file_size := t.get_file_size + s.file_size }

/-- The aggregation loop over the drained record vector (lines 168-188). -/
def tally (records : List Stats) : Tally :=
  records.foldl tallyStep ⟨0, 0, 0, 0, 0, 0⟩

/-- The values appearing in the final report (lines 192-205).  `put_file_size`
and `get_file_size` are total bytes; the printed report shows them divided by
1024*1024 (MB). -/
structure Report where
  put_count : Nat
  put_time : Nat
  put_avg_time : Nat
  put_file_size : Nat
  get_count : Nat
  get_time : Nat
  get_avg_time : Nat
  get_file_size : Nat
  deriving DecidableEq, Repr

/-- The final aggregation (main.rs lines 168-205).  The code computes
`put_time / put_count` and `get_time / get_count` (lines 189-190) with
unsigned integer division and no zero guard: in Rust, `u128` division by zero
panics, so the model returns `none` whenever either count is zero. -/
def aggregate (records : List Stats) : Option Report :=
  let t := tally records
  if t.put_count = 0 then none
  else if t.get_count = 0 then none
  else
    some
      ⟨t.put_count, t.put_time, t.put_time / t.put_count, t.put_file_size,
       t.get_count, t.get_time, t.get_time / t.get_count, t.get_file_size⟩

/-- Byte totals are printed as `total_size / 1024 / 1024` MB (lines 197, 204). -/
def mbOf (bytes : Nat) : Nat := bytes / 1024 / 1024

/-! ### Specification-side partition quantities

These definitions follow the spec's wording ("p Put records with total
duration Dp ms and total bytes Bp"), to be compared with the code-side
`tally` fold. -/

/-- Whether a record belongs to the Put partition. -/
def isPut (s : Stats) : Bool :=
  match s.request_type with
  | .Put => true
  | .Get => false

/-- The Put partition of a record set (spec wording). -/
def putPartition (records : List Stats) : List Stats := records.filter isPut

/-- The Get partition of a record set (spec wording). -/
def getPartition (records : List Stats) : List Stats :=
  records.filter (fun s => !isPut s)

/-- Total duration in ms of a partition (spec wording). -/
def totalTime (l : List Stats) : Nat := (l.map duration_ms).sum

/-- Total bytes of a partition (spec wording). -/
def totalBytes (l : List Stats) : Nat := (l.map Stats.file_size).sum

/-! ### Workload generator (put worker, main.rs lines 59-63) -/

/-- Lower bound of `thread_rng().gen_range(1024..1024 * 1024 * 100)`. -/
def SIZE_LO : Nat := 1024

/-- Upper (exclusive) bound of the same draw: `1024 * 1024 * 100`. -/
def SIZE_HI : Nat := 1024 * 1024 * 100

/-- Model of the rand crate's `gen_range(lo..hi)`: a draw in `[lo, hi)`
obtained from an abstract random value `r`.  Every value of the range is
reached by some `r`, and no value outside it by any. -/
def gen_range (lo hi r : Nat) : Nat := lo + r % (hi - lo)

/-- `let body: Vec<u8> = (0..file_size).map(|_| thread_rng().gen()).collect()`
(line 63): one random byte per index. -/
def genBody (file_size : Nat) (rnd : Nat → Nat) : List Nat :=
  (List.range file_size).map (fun i => rnd i % 256)

/-- `format!("put_{}", file_size)` (line 60). -/
def put_file_name (file_size : Nat) : String := "put_" ++ toString file_size

/-- `format!("{}/{}", root_prefix, file_name)` (line 61). -/
def put_key (rp : String) (file_size : Nat) : String :=
  rp ++ "/" ++ put_file_name file_size

/-! ### Storage responses (scripts)

`rusoto` errors observed by the workers.  The source matches
`RusotoError::HttpDispatch(_)` specially (lines 82, 153); every other error
variant falls into the catch-all `Err(e)` arm, modelled by `other`. -/

/-- Error classification as the worker loops observe it. -/
inductive RusotoErr where
  | HttpDispatch
  | other
  deriving DecidableEq, Repr

/-- Outcome of one `put_object` call (line 71). -/
inductive PutResponse where
  | ok
  | err (e : RusotoErr)
  deriving DecidableEq, Repr

/-- One `list_objects_v2` page: `contents: Option<Vec<Object>>` where each
object's `key` is an `Option<String>`; `next_continuation_token` is modelled
by whether a further page is indicated. -/
structure ListPage where
  contents : Option (List (Option String))
  next_continuation_token : Bool
  deriving DecidableEq, Repr

/-- Outcome of one `list_objects_v2` call (line 111). -/
inductive ListResult where
  | ok (p : ListPage)
  | err (e : RusotoErr)
  deriving DecidableEq, Repr

/-- Outcome of reading a GET response body with `read_to_end` (line 139). -/
inductive BodyRead where
  | bytes (content : List Nat)
  | readErr
  deriving DecidableEq, Repr

/-- Outcome of one `get_object` call (line 134): on `Ok`, the response has a
nominal `content_length` (unused by the code) and an optional body stream. -/
inductive GetResponse where
  | ok (content_length : Option Nat) (body : Option BodyRead)
  | err (e : RusotoErr)
  deriving DecidableEq, Repr

/-! ### Put worker (main.rs lines 52-93) -/

/-- Everything one put-loop iteration consumes from the environment: the
random draw for the size, the random byte supply for the body, the time the
body generation takes, the time the `put_object` call takes, and the
response. -/
structure PutScript where
  sizeRand : Nat
  bytes : Nat → Nat
  genCost : Nat
  putCost : Nat
  resp : PutResponse

/-- Observables of one put-loop iteration (lines 58-90). -/
structure PutIterResult where
  key : String
  file_size : Nat
  body_len : Nat
  record : Option Stats
  clock : Nat
  deriving Repr

/-- One iteration of the put loop (lines 58-90): draw `file_size`, build the
key, take `start_time` (line 62), generate the body (line 63), issue the PUT.
On `Ok` take `end_time` and push a record (lines 72-81); on
`HttpDispatch` print and continue (82-84); on any other error log and
continue (85-87).  No branch panics. -/
def putIteration (rp : String) (t0 : Nat) (sc : PutScript) : PutIterResult :=
  let file_size := gen_range SIZE_LO SIZE_HI sc.sizeRand
  let key := put_key rp file_size
  let start_time := t0
  let body := genBody file_size sc.bytes
  let tGen := start_time + sc.genCost
  let record : Option Stats :=
    match sc.resp with
    | .ok => some ⟨start_time, tGen + sc.putCost, .Put, file_size⟩
    | .err _ => none
  ⟨key, file_size, body.length, record, tGen + sc.putCost⟩

/-- What is observable of a finished (or aborted) worker task: the records it
pushed into the shared vector, in push order, and whether its task panicked
before completing its loop. -/
structure WorkerResult where
  records : List Stats
  aborted : Bool
  deriving DecidableEq, Repr

/-- The put worker loop `for _ in 0..put_per_thread` (lines 58-90), one
script per iteration. -/
def putWorker (rp : String) (t0 : Nat) : List PutScript → WorkerResult
  | [] => ⟨[], false⟩
  | sc :: rest =>
      let r := putIteration rp t0 sc
      let w := putWorker rp r.clock rest
      match r.record with
      | some s => ⟨s :: w.records, w.aborted⟩
      | none => ⟨w.records, w.aborted⟩

/-! ### Get worker (main.rs lines 96-161) -/

/-- Result of the pagination loop (lines 110-117): `done` with the collected
object entries, `panicked` when a `.unwrap()` fired (an `Err` list result at
line 111 or a missing `contents` at line 112), `stuck` when the script ran
out of pages before the loop observed a page with no continuation token (a
modelling artifact, never the subject of a claim). -/
inductive ListOutcome where
  | done (objects : List (Option String))
  | panicked
  | stuck
  deriving DecidableEq, Repr

/-- The pagination loop (lines 110-117): repeatedly list, extend `objects`
with `result.contents.unwrap()`, stop when no continuation token is
indicated. -/
def collectObjects (acc : List (Option String)) : List ListResult → ListOutcome
  | [] => .stuck
  | .err _ :: _ => .panicked
  | .ok p :: rest =>
      match p.contents with
      | none => .panicked
      | some objs =>
          if p.next_continuation_token then collectObjects (acc ++ objs) rest
          else .done (acc ++ objs)

/-- Everything one get-loop iteration consumes: the listing pages, the random
draw for key selection, and the costs/response of the GET. -/
structure GetScript where
  pages : List ListResult
  keyRand : Nat
  listCost : Nat
  getCost : Nat
  readCost : Nat
  resp : GetResponse
  deriving Repr

/-- How one get-loop iteration ended. -/
inductive GetIterOutcome where
  | recorded (s : Stats)
  | backoff
  | noBody
  | dispatchSkipped
  | errorLogged
  | panicked
  | stuck
  deriving DecidableEq, Repr

/-- Observables of one get-loop iteration: its outcome, the key the GET was
issued for (`none` when no GET was attempted), the seconds slept
(1 on the empty-listing backoff, line 120), and the clock afterwards. -/
structure GetIterResult where
  outcome : GetIterOutcome
  getKey : Option String
  sleptSecs : Nat
  clock : Nat
  deriving Repr

/-- One iteration of the get loop (lines 103-158): paginate the listing
(110-117); if no objects, sleep 1 s and continue (119-122); otherwise select
`objects[gen_range(0..objects.len())]` and unwrap its key (123-126); take
`start_time` (127), issue the GET (134); on `Ok` with a body, read it fully,
take `end_time` and push a record with `file_size = buf.len()` (135-148); on
`Ok` without a body log (149-151); `HttpDispatch` is ignored (153); other
errors are logged (154-156).  `.unwrap()` at lines 111, 112, 126 and 139 are
the `panicked` outcomes. -/
def getIteration (t0 : Nat) (sc : GetScript) : GetIterResult :=
  let tList := t0 + sc.listCost
  match collectObjects [] sc.pages with
  | .panicked => ⟨.panicked, none, 0, tList⟩
  | .stuck => ⟨.stuck, none, 0, tList⟩
  | .done objects =>
      if objects.length = 0 then
        ⟨.backoff, none, 1, tList + 1000⟩
      else
        match objects.get? (gen_range 0 objects.length sc.keyRand) with
        | none => ⟨.stuck, none, 0, tList⟩
        | some none => ⟨.panicked, none, 0, tList⟩
        | some (some key) =>
            let start_time := tList
            match sc.resp with
            | .ok _ (some (.bytes content)) =>
                let end_time := start_time + sc.getCost + sc.readCost
                ⟨.recorded ⟨start_time, end_time, .Get, content.length⟩,
                  some key, 0, end_time⟩
            | .ok _ (some .readErr) => ⟨.panicked, some key, 0, start_time + sc.getCost⟩
            | .ok _ none => ⟨.noBody, some key, 0, start_time + sc.getCost⟩
            | .err .HttpDispatch => ⟨.dispatchSkipped, some key, 0, start_time + sc.getCost⟩
            | .err .other => ⟨.errorLogged, some key, 0, start_time + sc.getCost⟩

/-- The get worker loop `for _ in 0..get_per_thread` (lines 103-158).  A
`panicked` (or `stuck`) iteration aborts the task: no further iterations run
and the task's join yields an error, which `join_all` absorbs (line 165). -/
def getWorker (t0 : Nat) : List GetScript → WorkerResult
  | [] => ⟨[], false⟩
  | sc :: rest =>
      let r := getIteration t0 sc
      match r.outcome with
      | .recorded s =>
          let w := getWorker r.clock rest
          ⟨s :: w.records, w.aborted⟩
      | .panicked => ⟨[], true⟩
      | .stuck => ⟨[], true⟩
      | _ =>
          let w := getWorker r.clock rest
          ⟨w.records, w.aborted⟩

/-- A get script on which none of the loop's `.unwrap()`s can fire while
listing or reading: the pagination ends in `done`, every listed entry has a
key, and the body read (if a body is present) does not fail. -/
def listingOk (sc : GetScript) : Bool :=
  match collectObjects [] sc.pages with
  | .done objs => objs.all Option.isSome
  | _ => false

/-- The GET response body read cannot fail (`read_to_end` at line 139 does
not return `Err`). -/
def bodyReadOk (sc : GetScript) : Bool :=
  match sc.resp with
  | .ok _ (some .readErr) => false
  | _ => true

/-! ### Event order inside one put iteration

The sequence of effects of the put-loop body exactly as the statements are
ordered in the source (lines 59-87): size draw (59), key construction
(60-61), `start_time` (62), payload generation (63), the PUT call (71), and
the response branch. -/

/-- The effects of one put-loop iteration. -/
inductive PutEvent where
  | genFileSize
  | genKey
  | recordStart
  | genPayload
  | issuePut
  | recordEnd
  | appendStats
  | logDispatch
  | logError
  deriving DecidableEq, BEq, Repr

/-- The effect trace of one put-loop iteration (lines 59-87), in statement
order. -/
def putIterationEvents (resp : PutResponse) : List PutEvent :=
  [.genFileSize, .genKey, .recordStart, .genPayload, .issuePut] ++
    match resp with
    | .ok => [.recordEnd, .appendStats]
    | .err .HttpDispatch => [.logDispatch]
    | .err .other => [.logError]

/-- The events that occur strictly between taking `start_time` and issuing
the PUT. -/
def eventsBetween (l : List PutEvent) : List PutEvent :=
  ((l.dropWhile (fun e => e != PutEvent.recordStart)).drop 1).takeWhile
    (fun e => e != PutEvent.issuePut)

/-! ### The shared collector under concurrent appends

`stats_vec` is an `Arc<Mutex<Vec<Stats>>>` (line 47); each worker appends
with `stats_vec.lock().unwrap().push(stats)` (lines 80, 147), so concurrent
appends are serialized by the mutex: a run is some interleaving of the
workers' individual pushes.  The main task joins every worker before reading
the vector (lines 165, 174). -/

/-- Global state: the records each worker still has to append, and the
contents of the shared vector. -/
structure CollState where
  pending : List (List Stats)
  collected : List Stats
  deriving Repr

/-- One mutex-serialized `push`: some worker `i` with a nonempty queue moves
its next record to the end of the shared vector. -/
inductive AppendStep : CollState → CollState → Prop
  | push (pending : List (List Stats)) (collected : List Stats) (i : Nat)
      (s : Stats) (rest : List Stats) (hi : i < pending.length)
      (hq : pending.get ⟨i, hi⟩ = s :: rest) :
      AppendStep ⟨pending, collected⟩ ⟨pending.set i rest, collected ++ [s]⟩

/-- An arbitrary interleaving of appends. -/
def Reaches : CollState → CollState → Prop := Relation.ReflTransGen AppendStep

/-- All workers have finished appending (the join-all barrier has passed). -/
def Terminal (st : CollState) : Prop := ∀ q ∈ st.pending, q = []

/-- The multiset of records of one worker's queue. -/
def listMset (q : List Stats) : Multiset Stats := (q : Multiset Stats)

/-- The records of a state, as a multiset: shared vector plus all pending
queues. -/
def msetOf (st : CollState) : Multiset Stats :=
  listMset st.collected + (st.pending.map listMset).sum

/-! ### Concrete scripts and records used by witnesses and counterexamples -/

/-- A concrete byte supply. -/
def zeroBytes : Nat → Nat := fun _ => 0

/-- A put iteration whose PUT succeeds (payload generation takes 5 ms, the
PUT takes 7 ms). -/
def okPutScript : PutScript := ⟨0, zeroBytes, 5, 7, .ok⟩

/-- A put iteration whose PUT fails with `HttpDispatch`. -/
def dispatchPutScript : PutScript := ⟨1, zeroBytes, 2, 3, .err .HttpDispatch⟩

/-- A put iteration whose PUT fails with an application error. -/
def appErrPutScript : PutScript := ⟨2, zeroBytes, 2, 3, .err .other⟩

/-- A single listing page carrying the given entries and no continuation
token. -/
def onePage (entries : List (Option String)) : ListResult := .ok ⟨some entries, false⟩

/-- A get iteration that lists one key and reads a 1-byte body. -/
def okGetScript : GetScript :=
  ⟨[onePage [some "bench/put_1024"]], 0, 3, 4, 5, .ok (some 1) (some (.bytes [9]))⟩

/-- A get iteration whose GET fails with `HttpDispatch` after a good listing. -/
def dispatchGetScript : GetScript :=
  ⟨[onePage [some "bench/put_1024"]], 0, 3, 4, 5, .err .HttpDispatch⟩

/-- A get iteration whose listing call returns an error. -/
def listErrGetScript : GetScript := ⟨[.err .other], 0, 3, 4, 5, .ok none none⟩

/-- A get iteration whose listing is empty. -/
def emptyListGetScript : GetScript := ⟨[onePage []], 0, 3, 4, 5, .ok none none⟩

/-- Concrete records for the collector witness. -/
def wStat1 : Stats := ⟨0, 1, .Put, 1⟩

/-- Concrete records for the collector witness. -/
def wStat2 : Stats := ⟨0, 2, .Get, 2⟩

/-- A record set containing one Put record and no Get records. -/
def putOnlyStat : Stats := ⟨0, 5, .Put, 2048⟩

/-- A put script whose size draw collides with `okPutScript`'s draw of 0:
both produce the minimal size. -/
def collidePutScript : PutScript := ⟨SIZE_HI - SIZE_LO, zeroBytes, 2, 3, .err .other⟩

/-! ## Helper lemmas -/

theorem gen_range_lower (lo hi r : Nat) : lo ≤ gen_range lo hi r :=
  Nat.le_add_right lo (r % (hi - lo))

theorem gen_range_upper (lo hi r : Nat) (h : lo < hi) : gen_range lo hi r < hi := by
  have hpos : 0 < hi - lo := Nat.sub_pos_of_lt h
  have hm : r % (hi - lo) < hi - lo := Nat.mod_lt r hpos
  calc lo + r % (hi - lo) < lo + (hi - lo) := Nat.add_lt_add_left hm lo
    _ = hi := Nat.add_sub_cancel' (Nat.le_of_lt h)

theorem genBody_length (file_size : Nat) (rnd : Nat → Nat) :
    (genBody file_size rnd).length = file_size := by
  simp [genBody]

lemma putIteration_file_size (rp : String) (t0 : Nat) (sc : PutScript) :
    (putIteration rp t0 sc).file_size = gen_range SIZE_LO SIZE_HI sc.sizeRand := rfl

lemma putIteration_key_eq (rp : String) (t0 : Nat) (sc : PutScript) :
    (putIteration rp t0 sc).key
      = put_key rp (gen_range SIZE_LO SIZE_HI sc.sizeRand) := rfl

lemma putIteration_body_len (rp : String) (t0 : Nat) (sc : PutScript) :
    (putIteration rp t0 sc).body_len
      = (genBody (gen_range SIZE_LO SIZE_HI sc.sizeRand) sc.bytes).length := rfl

lemma putIteration_clock (rp : String) (t0 : Nat) (sc : PutScript) :
    (putIteration rp t0 sc).clock = t0 + sc.genCost + sc.putCost := rfl

lemma putIteration_record_ok (rp : String) (t0 : Nat) (sc : PutScript)
    (h : sc.resp = .ok) :
    (putIteration rp t0 sc).record
      = some ⟨t0, t0 + sc.genCost + sc.putCost, .Put,
          gen_range SIZE_LO SIZE_HI sc.sizeRand⟩ := by
  simp only [putIteration, h]

lemma putIteration_record_err (rp : String) (t0 : Nat) (sc : PutScript)
    (e : RusotoErr) (h : sc.resp = .err e) :
    (putIteration rp t0 sc).record = none := by
  simp only [putIteration, h]

lemma putWorker_cons_err (rp : String) (t0 : Nat) (sc : PutScript)
    (rest : List PutScript) (e : RusotoErr) (h : sc.resp = .err e) :
    putWorker rp t0 (sc :: rest) = putWorker rp (t0 + sc.genCost + sc.putCost) rest := by
  simp only [putWorker, putIteration_record_err rp t0 sc e h, putIteration_clock]

lemma putWorker_never_aborts (rp : String) (ps : List PutScript) :
    ∀ t0 : Nat, (putWorker rp t0 ps).aborted = false := by
  induction ps with
  | nil => intro t0; rfl
  | cons sc rest ih =>
      intro t0
      cases hrec : (putIteration rp t0 sc).record <;>
        simp [putWorker, hrec, ih]

lemma length_ne_zero_of_get_some {α : Type} {l : List α} {n : Nat} {a : α}
    (h : l.get? n = some a) : ¬l.length = 0 := by
  intro h0
  rw [List.length_eq_zero] at h0
  subst h0
  simp at h

lemma getIteration_backoff (t0 : Nat) (sc : GetScript)
    (hc : collectObjects [] sc.pages = .done []) :
    getIteration t0 sc = ⟨.backoff, none, 1, t0 + sc.listCost + 1000⟩ := by
  simp [getIteration, hc]

lemma getIteration_resp (t0 : Nat) (sc : GetScript) (objs : List (Option String))
    (k : String) (hc : collectObjects [] sc.pages = .done objs)
    (hk : objs.get? (gen_range 0 objs.length sc.keyRand) = some (some k)) :
    getIteration t0 sc =
      match sc.resp with
      | .ok _ (some (.bytes content)) =>
          ⟨.recorded ⟨t0 + sc.listCost, t0 + sc.listCost + sc.getCost + sc.readCost,
              .Get, content.length⟩,
            some k, 0, t0 + sc.listCost + sc.getCost + sc.readCost⟩
      | .ok _ (some .readErr) => ⟨.panicked, some k, 0, t0 + sc.listCost + sc.getCost⟩
      | .ok _ none => ⟨.noBody, some k, 0, t0 + sc.listCost + sc.getCost⟩
      | .err .HttpDispatch => ⟨.dispatchSkipped, some k, 0, t0 + sc.listCost + sc.getCost⟩
      | .err .other => ⟨.errorLogged, some k, 0, t0 + sc.listCost + sc.getCost⟩ := by
  have hne : ¬objs.length = 0 := length_ne_zero_of_get_some hk
  rw [List.get?_eq_getElem?] at hk
  cases hr : sc.resp with
  | ok cl body =>
      cases body with
      | none => simp [getIteration, hc, hne, hk, hr]
      | some br =>
          cases br with
          | bytes content => simp [getIteration, hc, hne, hk, hr]
          | readErr => simp [getIteration, hc, hne, hk, hr]
  | err e => cases e <;> simp [getIteration, hc, hne, hk, hr]

lemma getIteration_dispatch (t0 : Nat) (sc : GetScript) (objs : List (Option String))
    (k : String) (hc : collectObjects [] sc.pages = .done objs)
    (hk : objs.get? (gen_range 0 objs.length sc.keyRand) = some (some k))
    (hr : sc.resp = .err .HttpDispatch) :
    getIteration t0 sc
      = ⟨.dispatchSkipped, some k, 0, t0 + sc.listCost + sc.getCost⟩ := by
  rw [getIteration_resp t0 sc objs k hc hk, hr]

lemma getIteration_recorded (t0 : Nat) (sc : GetScript) (objs : List (Option String))
    (k : String) (cl : Option Nat) (content : List Nat)
    (hc : collectObjects [] sc.pages = .done objs)
    (hk : objs.get? (gen_range 0 objs.length sc.keyRand) = some (some k))
    (hr : sc.resp = .ok cl (some (.bytes content))) :
    getIteration t0 sc =
      ⟨.recorded ⟨t0 + sc.listCost, t0 + sc.listCost + sc.getCost + sc.readCost,
          .Get, content.length⟩,
        some k, 0, t0 + sc.listCost + sc.getCost + sc.readCost⟩ := by
  rw [getIteration_resp t0 sc objs k hc hk, hr]

lemma getIteration_getKey_some (t0 : Nat) (sc : GetScript) (objs : List (Option String))
    (k : String) (hc : collectObjects [] sc.pages = .done objs)
    (hk : objs.get? (gen_range 0 objs.length sc.keyRand) = some (some k)) :
    (getIteration t0 sc).getKey = some k := by
  have hmaster := getIteration_resp t0 sc objs k hc hk
  cases hr : sc.resp with
  | ok cl body =>
      cases body with
      | none => rw [hmaster, hr]
      | some br =>
          cases br with
          | bytes content => rw [hmaster, hr]
          | readErr => rw [hmaster, hr]
  | err e => cases e <;> rw [hmaster, hr]

lemma getIteration_not_panic (t0 : Nat) (sc : GetScript)
    (h1 : listingOk sc = true) (h2 : bodyReadOk sc = true) :
    (getIteration t0 sc).outcome ≠ .panicked ∧ (getIteration t0 sc).outcome ≠ .stuck := by
  unfold listingOk at h1
  cases hc : collectObjects [] sc.pages with
  | panicked => rw [hc] at h1; cases h1
  | stuck => rw [hc] at h1; cases h1
  | done objs =>
      rw [hc] at h1
      by_cases hlen : objs.length = 0
      · have hobjs : objs = [] := List.length_eq_zero.mp hlen
        subst hobjs
        rw [getIteration_backoff t0 sc hc]
        exact ⟨by simp, by simp⟩
      · have hpos : 0 < objs.length := Nat.pos_of_ne_zero hlen
        have hlt : gen_range 0 objs.length sc.keyRand < objs.length := by
          simpa [gen_range] using Nat.mod_lt sc.keyRand hpos
        obtain ⟨k, hk0⟩ : ∃ k,
            objs.get ⟨gen_range 0 objs.length sc.keyRand, hlt⟩ = some k := by
          have hmem := List.get_mem objs (gen_range 0 objs.length sc.keyRand) hlt
          have := List.all_eq_true.mp h1 _ hmem
          exact Option.isSome_iff_exists.mp (by simpa using this)
        have hk : objs.get? (gen_range 0 objs.length sc.keyRand) = some (some k) := by
          rw [List.get?_eq_get hlt, hk0]
        have hmaster := getIteration_resp t0 sc objs k hc hk
        unfold bodyReadOk at h2
        cases hr : sc.resp with
        | ok cl body =>
            cases body with
            | none => rw [hmaster, hr]; exact ⟨by simp, by simp⟩
            | some br =>
                cases br with
                | bytes content => rw [hmaster, hr]; exact ⟨by simp, by simp⟩
                | readErr => rw [hr] at h2; cases h2
        | err e =>
            cases e <;> (rw [hmaster, hr]; exact ⟨by simp, by simp⟩)

lemma getWorker_no_abort (gs : List GetScript)
    (h : ∀ sc ∈ gs, listingOk sc = true ∧ bodyReadOk sc = true) :
    ∀ t0 : Nat, (getWorker t0 gs).aborted = false := by
  induction gs with
  | nil => intro t0; rfl
  | cons sc rest ih =>
      intro t0
      obtain ⟨h1, h2⟩ := h sc (by simp)
      have hrest : ∀ sc2 ∈ rest, listingOk sc2 = true ∧ bodyReadOk sc2 = true :=
        fun sc2 hm => h sc2 (by simp [hm])
      have hnp := getIteration_not_panic t0 sc h1 h2
      cases hout : (getIteration t0 sc).outcome with
      | panicked => exact absurd hout hnp.1
      | stuck => exact absurd hout hnp.2
      | recorded s => simp [getWorker, hout, ih hrest]
      | backoff => simp [getWorker, hout, ih hrest]
      | noBody => simp [getWorker, hout, ih hrest]
      | dispatchSkipped => simp [getWorker, hout, ih hrest]
      | errorLogged => simp [getWorker, hout, ih hrest]

lemma foldl_tallyStep (records : List Stats) : ∀ t : Tally,
    records.foldl tallyStep t =
      ⟨t.put_count + (putPartition records).length,
       t.get_count + (getPartition records).length,
       t.put_time + totalTime (putPartition records),
       t.get_time + totalTime (getPartition records),
       t.put_file_size + totalBytes (putPartition records),
       t.get_file_size + totalBytes (getPartition records)⟩ := by
  induction records with
  | nil =>
      intro t
      simp [putPartition, getPartition, totalTime, totalBytes]
  | cons s rest ih =>
      intro t
      rw [List.foldl_cons, ih (tallyStep t s)]
      cases hrt : s.request_type <;>
        simp [tallyStep, hrt, putPartition, getPartition, isPut, totalTime,
          totalBytes, List.filter_cons] <;>
        constructor <;> omega

lemma tally_spec (records : List Stats) :
    tally records =
      ⟨(putPartition records).length, (getPartition records).length,
       totalTime (putPartition records), totalTime (getPartition records),
       totalBytes (putPartition records), totalBytes (getPartition records)⟩ := by
  rw [tally, foldl_tallyStep]
  simp

lemma listMset_cons (s : Stats) (rest : List Stats) :
    listMset (s :: rest) = {s} + listMset rest := by
  simp only [listMset]
  rw [Multiset.singleton_add, Multiset.cons_coe]

lemma listMset_append (l1 l2 : List Stats) :
    listMset (l1 ++ l2) = listMset l1 + listMset l2 := by
  simp only [listMset]
  rw [← Multiset.coe_add]

lemma sum_map_set_cons (s : Stats) :
    ∀ (l : List (List Stats)) (i : Nat) (hi : i < l.length)
      (rest : List Stats), l.get ⟨i, hi⟩ = s :: rest →
      ((l.set i rest).map listMset).sum + {s}
        = (l.map listMset).sum := by
  intro l
  induction l with
  | nil => intro i hi; exact absurd hi (by simp)
  | cons q qs ih =>
      intro i hi rest hq
      cases i with
      | zero =>
          simp only [List.get] at hq
          subst hq
          simp only [List.set, List.map_cons, List.sum_cons]
          rw [listMset_cons]
          abel
      | succ n =>
          have hn : n < qs.length := by
            simpa using Nat.lt_of_succ_lt_succ (by simpa using hi)
          have hq2 : qs.get ⟨n, hn⟩ = s :: rest := hq
          simp only [List.set, List.map_cons, List.sum_cons]
          rw [add_assoc, ih n hn rest hq2]

lemma appendStep_msetOf_eq {st st2 : CollState} (h : AppendStep st st2) :
    msetOf st2 = msetOf st := by
  cases h with
  | push pending collected i s rest hi hq =>
      simp only [msetOf]
      have hcoll : listMset (collected ++ [s]) = listMset collected + {s} := by
        rw [listMset_append]; rfl
      rw [hcoll, add_assoc, add_comm ({s} : Multiset Stats) _,
        ← add_assoc, add_assoc, sum_map_set_cons s pending i hi rest hq]

lemma reaches_msetOf_eq {st st2 : CollState} (h : Reaches st st2) :
    msetOf st2 = msetOf st := by
  induction h with
  | refl => rfl
  | tail _ hstep ih => rw [appendStep_msetOf_eq hstep, ih]

lemma sum_map_listMset_eq_zero (l : List (List Stats)) (h : ∀ q ∈ l, q = []) :
    (l.map listMset).sum = 0 := by
  induction l with
  | nil => rfl
  | cons q qs ih =>
      have hq : q = [] := h q (by simp)
      have hrest : ∀ q2 ∈ qs, q2 = [] := fun q2 hm => h q2 (by simp [hm])
      simp [hq, ih hrest, listMset]

lemma sum_map_listMset_flatten (l : List (List Stats)) :
    (l.map listMset).sum = listMset l.flatten := by
  induction l with
  | nil => rfl
  | cons q qs ih => simp [List.flatten_cons, ih, listMset_append]

lemma flatten_length_of_uniform (M : Nat) :
    ∀ (l : List (List Stats)), (∀ q ∈ l, q.length = M) →
      l.flatten.length = l.length * M := by
  intro l
  induction l with
  | nil => intro; simp
  | cons q qs ih =>
      intro h
      have hq : q.length = M := h q (by simp)
      have hrest : ∀ q2 ∈ qs, q2.length = M := fun q2 hm => h q2 (by simp [hm])
      simp [List.flatten_cons, hq, ih hrest, Nat.succ_mul, Nat.add_comm]

/-! ## Claims -/

/-- Claim C1: aggregation over a record set with an empty partition must not
divide by zero and must report `count=0` with avg 0/undefined.  The code
violates this: `put_time / put_count` (line 189) and `get_time / get_count`
(line 190) carry no zero guard, and `u128` division by zero panics.  This
theorem evaluates the code at the failing input: for the empty record set
the tallied counts are both 0, yet the aggregation fails (`none` models the
division-by-zero panic) instead of reporting `count=0`. -/
theorem C1_empty_aggregate_divzero :
    aggregate [] = none ∧ (tally []).put_count = 0 ∧ (tally []).get_count = 0 :=
  ⟨rfl, rfl, rfl⟩

/-- Claim C2 counterexample: a LIST error aborts the worker's loop, contrary
to the claim that every storage error during the loop is handled locally.
With a first iteration whose `list_objects_v2` call errors, the `.unwrap()`
at line 111 panics the task: the worker aborts and its second iteration
never runs (no records), while that second iteration alone would have
recorded a GET. -/
theorem C2_list_error_aborts_worker :
    (getWorker 0 [listErrGetScript, okGetScript]).aborted = true ∧
    (getWorker 0 [listErrGetScript, okGetScript]).records = [] ∧
    (getWorker 0 [okGetScript]).records ≠ [] := by
  refine ⟨rfl, rfl, ?_⟩
  decide

/-- Claim C2 (amended): PUT errors and GET-object errors (dispatch or
application, including a missing body) are handled locally and the worker
continues to its next iteration; but a LIST failure or a GET body-read
failure panics that worker's task (the `.unwrap()`s at lines 111, 112, 126,
139), aborting only that worker — `join_all` absorbs the panic, so other
workers and the run continue.  Formally: a put worker never aborts whatever
its responses, and a get worker whose listings succeed and whose body reads
do not fail never aborts, whatever its GET outcomes. -/
theorem C2_errors_handled_locally (rp : String) (t0 u0 : Nat)
    (ps : List PutScript) (gs : List GetScript)
    (h : ∀ sc ∈ gs, listingOk sc = true ∧ bodyReadOk sc = true) :
    (putWorker rp t0 ps).aborted = false ∧ (getWorker u0 gs).aborted = false :=
  ⟨putWorker_never_aborts rp ps t0, getWorker_no_abort gs h u0⟩

/-- Witness for C2: concrete workers whose every operation fails (an
application error and a dispatch error on PUT; a dispatch error on GET)
still complete without aborting. -/
theorem C2_errors_handled_locally_witness :
    (putWorker "bench" 0 [appErrPutScript, dispatchPutScript]).aborted = false ∧
    (getWorker 0 [dispatchGetScript, okGetScript]).aborted = false :=
  C2_errors_handled_locally "bench" 0 0 [appErrPutScript, dispatchPutScript]
    [dispatchGetScript, okGetScript] (by decide)

/-- Claim C3 counterexample: work does occur between taking `start_time`
(line 62) and issuing the PUT (line 71): the payload buffer is generated at
line 63, after `start_time`.  The events strictly between `recordStart` and
`issuePut` are `[genPayload]`, not `[]`; concretely, with payload generation
costing 5 ms and the PUT call 7 ms, the recorded duration is 12 ms, not the
PUT's 7 ms. -/
theorem C3_payload_generated_inside_timing :
    eventsBetween (putIterationEvents PutResponse.ok) ≠ [] ∧
    eventsBetween (putIterationEvents PutResponse.ok) = [PutEvent.genPayload] ∧
    (putIteration "bench" 0 okPutScript).record = some ⟨0, 12, .Put, 1024⟩ ∧
    duration_ms ⟨0, 12, .Put, 1024⟩ ≠ okPutScript.putCost := by
  refine ⟨by decide, by decide, ?_, by decide⟩
  rfl

/-- Claim C3 (amended): `start_time` is recorded before the payload is
generated; payload generation is the only work between recording
`start_time` and issuing the PUT (so the measured duration is generation
time plus PUT time); on success the record carries `kind=Put` and
`byte_size` equal to the payload buffer's length. -/
theorem C3_put_record_contents (rp : String) (t0 : Nat) (sc : PutScript)
    (h : sc.resp = .ok) :
    eventsBetween (putIterationEvents sc.resp) = [PutEvent.genPayload] ∧
    (putIteration rp t0 sc).record
      = some ⟨t0, t0 + sc.genCost + sc.putCost, .Put,
          (putIteration rp t0 sc).file_size⟩ ∧
    (putIteration rp t0 sc).body_len = (putIteration rp t0 sc).file_size := by
  refine ⟨?_, ?_, ?_⟩
  · rw [h]; decide
  · rw [putIteration_record_ok rp t0 sc h, putIteration_file_size]
  · rw [putIteration_body_len, putIteration_file_size, genBody_length]

/-- Witness for C3 (amended) at a concrete successful put script. -/
theorem C3_put_record_contents_witness :
    eventsBetween (putIterationEvents okPutScript.resp) = [PutEvent.genPayload] ∧
    (putIteration "bench" 3 okPutScript).record
      = some ⟨3, 3 + okPutScript.genCost + okPutScript.putCost, .Put,
          (putIteration "bench" 3 okPutScript).file_size⟩ ∧
    (putIteration "bench" 3 okPutScript).body_len
      = (putIteration "bench" 3 okPutScript).file_size :=
  C3_put_record_contents "bench" 3 okPutScript rfl

/-- Claim C4 counterexample: for the record set `[putOnlyStat]`, with p = 1
Put records and g = 0 Get records, the claim promises a summary reporting
`put.count = 1`; instead the aggregation divides `get_time` by zero
(line 190) and panics (`none`), reporting nothing. -/
theorem C4_empty_get_partition_fails :
    (putPartition [putOnlyStat]).length = 1 ∧ aggregate [putOnlyStat] = none := by
  refine ⟨by decide, rfl⟩

/-- Claim C4 (amended): provided both partitions are nonempty (p > 0 and
g > 0), the aggregation reports `put.count = p`, `put.total_time_ms = Dp`,
`put.avg_time_ms = Dp / p` (integer division, as the code computes in u128),
`put.total_bytes = Bp`, and symmetrically for the Get partition. -/
theorem C4_partition_correct (records : List Stats)
    (hp : 0 < (putPartition records).length)
    (hg : 0 < (getPartition records).length) :
    aggregate records =
      some ⟨(putPartition records).length,
        totalTime (putPartition records),
        totalTime (putPartition records) / (putPartition records).length,
        totalBytes (putPartition records),
        (getPartition records).length,
        totalTime (getPartition records),
        totalTime (getPartition records) / (getPartition records).length,
        totalBytes (getPartition records)⟩ := by
  have hp0 : (putPartition records).length ≠ 0 := Nat.pos_iff_ne_zero.mp hp
  have hg0 : (getPartition records).length ≠ 0 := Nat.pos_iff_ne_zero.mp hg
  simp [aggregate, tally_spec, hp0, hg0]

/-- Witness for C4 (amended): one Put record of 5 ms and 2048 bytes and one
Get record of 3 ms and 100 bytes aggregate to the expected report. -/
theorem C4_partition_correct_witness :
    aggregate [⟨0, 5, .Put, 2048⟩, ⟨0, 3, .Get, 100⟩]
      = some ⟨1, 5, 5, 2048, 1, 3, 3, 100⟩ := by
  rw [C4_partition_correct [⟨0, 5, .Put, 2048⟩, ⟨0, 3, .Get, 100⟩]
    (by decide) (by decide)]
  decide

/-- Claim C5: every payload size drawn by the put worker satisfies
`1024 ≤ s < 104857600`, and the generated buffer contains exactly `s`
bytes. -/
theorem C5_payload_size_in_range (rp : String) (t0 : Nat) (sc : PutScript) :
    1024 ≤ (putIteration rp t0 sc).file_size ∧
    (putIteration rp t0 sc).file_size < 104857600 ∧
    (putIteration rp t0 sc).body_len = (putIteration rp t0 sc).file_size := by
  rw [putIteration_body_len, putIteration_file_size]
  refine ⟨gen_range_lower SIZE_LO SIZE_HI sc.sizeRand, ?_, genBody_length _ _⟩
  have h := gen_range_upper SIZE_LO SIZE_HI sc.sizeRand (by decide)
  have h2 : SIZE_HI = 104857600 := by norm_num [SIZE_HI]
  exact h2 ▸ h

/-- Claim C6: a transient dispatch-classified failure (`HttpDispatch`)
produces no record, is not counted, and the worker proceeds to its next
iteration — for both workers.  On `HttpDispatch` the put iteration records
nothing and the put worker on `psc :: prest` continues exactly as the worker
on `prest`; provided its listing succeeded selecting key `k`, the get
iteration ends in `dispatchSkipped` and the get worker on `gsc :: grest`
continues exactly as the worker on `grest`. -/
theorem C6_dispatch_skipped (rp : String) (t0 u0 : Nat) (psc : PutScript)
    (prest : List PutScript) (gsc : GetScript) (grest : List GetScript)
    (objs : List (Option String)) (k : String)
    (hp : psc.resp = .err .HttpDispatch)
    (hg : gsc.resp = .err .HttpDispatch)
    (hc : collectObjects [] gsc.pages = .done objs)
    (hk : objs.get? (gen_range 0 objs.length gsc.keyRand) = some (some k)) :
    (putIteration rp t0 psc).record = none ∧
    putWorker rp t0 (psc :: prest)
      = putWorker rp (t0 + psc.genCost + psc.putCost) prest ∧
    (getIteration u0 gsc).outcome = .dispatchSkipped ∧
    getWorker u0 (gsc :: grest)
      = getWorker (u0 + gsc.listCost + gsc.getCost) grest := by
  have hit := getIteration_dispatch u0 gsc objs k hc hk hg
  refine ⟨putIteration_record_err rp t0 psc _ hp,
    putWorker_cons_err rp t0 psc prest _ hp, by rw [hit], ?_⟩
  simp [getWorker, hit]

/-- Witness for C6: a concrete dispatch-failing put script and a concrete
dispatch-failing get script (with a one-key listing). -/
theorem C6_dispatch_skipped_witness :
    (putIteration "bench" 0 dispatchPutScript).record = none ∧
    putWorker "bench" 0 (dispatchPutScript :: [])
      = putWorker "bench" (0 + dispatchPutScript.genCost + dispatchPutScript.putCost) [] ∧
    (getIteration 0 dispatchGetScript).outcome = .dispatchSkipped ∧
    getWorker 0 (dispatchGetScript :: [])
      = getWorker (0 + dispatchGetScript.listCost + dispatchGetScript.getCost) [] :=
  C6_dispatch_skipped "bench" 0 0 dispatchPutScript [] dispatchGetScript []
    [some "bench/put_1024"] "bench/put_1024" rfl rfl (by decide) (by decide)

/-- Claim C7: in listing-mode GET, when the paginated listing (continuation
tokens followed until none is indicated) yields zero keys, the worker sleeps
a fixed 1 second, attempts no GET, and proceeds to the next loop iteration —
which begins with a fresh listing; when the listing is nonempty, the key at
the randomly drawn index `gen_range 0 objs.length r` is selected, it is a
listed key, and every listed index is drawn by some random value. -/
theorem C7_empty_listing_backoff (t0 : Nat) (sc : GetScript)
    (rest : List GetScript) (objs : List (Option String))
    (hc : collectObjects [] sc.pages = .done objs) :
    (objs.length = 0 →
      (getIteration t0 sc).outcome = .backoff ∧
      (getIteration t0 sc).getKey = none ∧
      (getIteration t0 sc).sleptSecs = 1 ∧
      getWorker t0 (sc :: rest) = getWorker (t0 + sc.listCost + 1000) rest) ∧
    (∀ k : String, objs.get? (gen_range 0 objs.length sc.keyRand) = some (some k) →
      (getIteration t0 sc).getKey = some k ∧ some k ∈ objs) ∧
    (∀ i : Nat, i < objs.length → gen_range 0 objs.length i = i) := by
  refine ⟨?_, ?_, ?_⟩
  · intro hlen
    have hobjs : objs = [] := List.length_eq_zero.mp hlen
    subst hobjs
    have hb := getIteration_backoff t0 sc hc
    refine ⟨by rw [hb], by rw [hb], by rw [hb], ?_⟩
    simp [getWorker, hb]
  · intro k hk
    exact ⟨getIteration_getKey_some t0 sc objs k hc hk, List.get?_mem hk⟩
  · intro i hi
    simp [gen_range, Nat.mod_eq_of_lt hi]

/-- Witness for C7 at a concrete empty-listing script: backoff of 1 second,
no GET key, and the worker proceeding to the rest of its loop. -/
theorem C7_empty_listing_backoff_witness :
    (getIteration 0 emptyListGetScript).outcome = .backoff ∧
    (getIteration 0 emptyListGetScript).getKey = none ∧
    (getIteration 0 emptyListGetScript).sleptSecs = 1 ∧
    getWorker 0 (emptyListGetScript :: [])
      = getWorker (0 + emptyListGetScript.listCost + 1000) [] :=
  (C7_empty_listing_backoff 0 emptyListGetScript [] [] (by decide)).1 (by decide)

/-- Claim C8: a successful GET's measured duration spans from just before
issuing the GET request (clock `t0 + listCost`, after the listing and key
selection) to the completion of fully reading the body
(`+ getCost + readCost`), and its `byte_size` is the actual number of bytes
read, `content.length` — independent of the response's nominal
`content_length` value `cl`, which is universally quantified here. -/
theorem C8_get_duration_and_bytes (t0 : Nat) (sc : GetScript)
    (objs : List (Option String)) (k : String) (cl : Option Nat)
    (content : List Nat)
    (hc : collectObjects [] sc.pages = .done objs)
    (hk : objs.get? (gen_range 0 objs.length sc.keyRand) = some (some k))
    (hr : sc.resp = .ok cl (some (.bytes content))) :
    (getIteration t0 sc).outcome =
      .recorded ⟨t0 + sc.listCost, t0 + sc.listCost + sc.getCost + sc.readCost,
        .Get, content.length⟩ ∧
    duration_ms ⟨t0 + sc.listCost, t0 + sc.listCost + sc.getCost + sc.readCost,
        .Get, content.length⟩ = sc.getCost + sc.readCost := by
  refine ⟨by rw [getIteration_recorded t0 sc objs k cl content hc hk hr], ?_⟩
  simp only [duration_ms]
  omega

/-- Witness for C8 at a concrete script reading a 1-byte body. -/
theorem C8_get_duration_and_bytes_witness :
    (getIteration 0 okGetScript).outcome =
      .recorded ⟨0 + okGetScript.listCost,
        0 + okGetScript.listCost + okGetScript.getCost + okGetScript.readCost,
        .Get, 1⟩ ∧
    duration_ms ⟨0 + okGetScript.listCost,
        0 + okGetScript.listCost + okGetScript.getCost + okGetScript.readCost,
        .Get, 1⟩ = okGetScript.getCost + okGetScript.readCost :=
  C8_get_duration_and_bytes 0 okGetScript [some "bench/put_1024"]
    "bench/put_1024" (some 1) [9] (by decide) (by decide) rfl

/-- Claim C9: concurrent appends to the shared collector neither lose nor
duplicate records.  Starting from N worker queues of M records each and an
empty shared vector, any interleaving of mutex-serialized pushes that ends
with every queue drained leaves the vector holding exactly N*M records — a
permutation of all queued records. -/
theorem C9_concurrent_append_exact (N M : Nat) (queues : List (List Stats))
    (final : CollState) (hN : queues.length = N)
    (hM : ∀ q ∈ queues, q.length = M)
    (hreach : Reaches ⟨queues, []⟩ final) (hterm : Terminal final) :
    final.collected.length = N * M ∧ final.collected.Perm queues.flatten := by
  have hms := reaches_msetOf_eq hreach
  have hzero : (final.pending.map listMset).sum = 0 :=
    sum_map_listMset_eq_zero final.pending hterm
  have hinit : msetOf ⟨queues, []⟩ = listMset queues.flatten := by
    simp only [msetOf, sum_map_listMset_flatten]
    rw [show listMset [] = 0 from rfl, zero_add]
  have hfin : msetOf final = listMset final.collected := by
    simp only [msetOf, hzero]
    rw [add_zero]
  have hcoll : listMset final.collected = listMset queues.flatten := by
    rw [← hfin, hms, hinit]
  have hperm : final.collected.Perm queues.flatten := by
    simpa [listMset, Multiset.coe_eq_coe] using hcoll
  refine ⟨?_, hperm⟩
  rw [hperm.length_eq, flatten_length_of_uniform M queues hM, hN]

/-- Witness for C9: two workers with one record each; a concrete
interleaving (worker 0 first, then worker 1) drains both queues and leaves
exactly 2*1 records. -/
theorem C9_concurrent_append_exact_witness :
    (⟨[[], []], [wStat1, wStat2]⟩ : CollState).collected.length = 2 * 1 ∧
    (⟨[[], []], [wStat1, wStat2]⟩ : CollState).collected.Perm
      ([[wStat1], [wStat2]] : List (List Stats)).flatten := by
  have s1 : AppendStep ⟨[[wStat1], [wStat2]], []⟩ ⟨[[], [wStat2]], [wStat1]⟩ :=
    AppendStep.push [[wStat1], [wStat2]] [] 0 wStat1 [] (by decide) rfl
  have s2 : AppendStep ⟨[[], [wStat2]], [wStat1]⟩ ⟨[[], []], [wStat1, wStat2]⟩ :=
    AppendStep.push [[], [wStat2]] [wStat1] 1 wStat2 [] (by decide) rfl
  exact C9_concurrent_append_exact 2 1 [[wStat1], [wStat2]]
    ⟨[[], []], [wStat1, wStat2]⟩ rfl (by decide)
    (Relation.ReflTransGen.head s1
      (Relation.ReflTransGen.head s2 Relation.ReflTransGen.refl))
    (by intro q hq; simp at hq; simp [hq])

/-- Claim C10: the PUT key is deterministically derived from the generated
payload size as the prefix, a slash, and `put_` followed by the size; any
two PUT attempts (different workers, times, responses) that draw the same
size write the same key, and distinct random draws do collide on the same
size, so distinct successful PUTs are not guaranteed to create distinct
objects. -/
theorem C10_key_collision (rp : String) (t0 t1 : Nat) (sc1 sc2 : PutScript)
    (h : gen_range SIZE_LO SIZE_HI sc1.sizeRand
      = gen_range SIZE_LO SIZE_HI sc2.sizeRand) :
    (putIteration rp t0 sc1).key
      = rp ++ "/" ++ ("put_" ++ toString (putIteration rp t0 sc1).file_size) ∧
    (putIteration rp t0 sc1).key = (putIteration rp t1 sc2).key ∧
    ∃ r1 r2 : Nat, r1 ≠ r2 ∧
      gen_range SIZE_LO SIZE_HI r1 = gen_range SIZE_LO SIZE_HI r2 := by
  refine ⟨rfl, ?_, 0, SIZE_HI - SIZE_LO, by decide, ?_⟩
  · rw [putIteration_key_eq, putIteration_key_eq, h]
  · simp [gen_range, Nat.mod_self]

/-- Witness for C10: the draws 0 and `SIZE_HI - SIZE_LO` both yield size
1024, so two different put attempts write the same key. -/
theorem C10_key_collision_witness :
    (putIteration "bench" 0 okPutScript).key
      = (putIteration "bench" 9 collidePutScript).key :=
  (C10_key_collision "bench" 0 9 okPutScript collidePutScript (by decide)).2.1

end S3Bench
